import Mathlib

/-!
Shallow embedding of the MCP worker gateway: the tool registry
(src/utils/tools.ts), the arithmetic tool (src/tools/add.ts) and the
request/response correlation layer (src/server.ts), together with proofs
of the specified properties.
-/

/-- A JSON-ish value, the subset used as tool arguments and payloads. -/
inductive JVal where
  | jnum (n : Int)
  | jstr (s : String)
  | jnull
  | jobj (fields : List (String × JVal))

/-- Field lookup in a JSON object literal (first binding wins, as in JS). -/
def lookupField : List (String × JVal) → String → Option JVal
  | [], _ => none
  | (k', v) :: rest, k => if k' = k then some v else lookupField rest k

/-- `jGet v k` models the JS property access `v[k]`: `none` is `undefined`. -/
def jGet : JVal → String → Option JVal
  | .jobj fields, k => lookupField fields k
  | _, _ => none

/-- One content block of an execution result: `{ type, text }`. -/
structure ContentBlock where
  type : String
  text : String
deriving DecidableEq

/-- The execution result shape returned by every tool invocation
(`{ content, isError? }`); an absent `isError` is the same as `false`. -/
structure ExecResult where
  content : List ContentBlock
  isError : Bool := false
deriving DecidableEq

/-- A tool unit (class `Tool` in src/utils/tools.ts): name, description and
an execution entry point. A JS execution that throws (or rejects) with
message `m` is embedded as `Except.error m`; a normal return is `Except.ok`. -/
structure Tool where
  name : String
  description : String
  execute : JVal → Except String ExecResult

/-- The registry catalog, a JS `Map<string, Tool>` as an association list
with unique keys in insertion order. -/
abbrev Registry := List (String × Tool)

/-- `Map.get`: first (and only) binding for the key. -/
def mapGet : Registry → String → Option Tool
  | [], _ => none
  | (k', v) :: rest, k => if k' = k then some v else mapGet rest k

/-- `Map.has`. -/
def mapHas (m : Registry) (k : String) : Bool :=
  (mapGet m k).isSome

/-- `Map.set`: overwrite in place when the key exists, append otherwise
(JS `Map.set` keeps the original insertion position on overwrite). -/
def mapSet : Registry → String → Tool → Registry
  | [], k, v => [(k, v)]
  | (k', v') :: rest, k, v =>
      if k' = k then (k, v) :: rest else (k', v') :: mapSet rest k v

/-- The warning text `console.warn` surfaces on an overwriting registration. -/
def warnOverwrite (n : String) : String :=
  "Tool with name " ++ n ++ " already exists. Overwriting."

/-- Registry state: the catalog plus the warnings surfaced so far
(the `console.warn` side channel made explicit). -/
structure RegState where
  tools : Registry
  warnings : List String

/-- `ToolRegistry.registerTool`: warn when the name already exists, then
`Map.set` the tool under its name. -/
def registerTool (s : RegState) (t : Tool) : RegState :=
  { tools := mapSet s.tools t.name t
  , warnings :=
      if mapHas s.tools t.name then s.warnings ++ [warnOverwrite t.name]
      else s.warnings }

/-- `ToolRegistry.unregisterTool`: `Map.delete`, returning whether the key
existed together with the catalog after removal. -/
def unregisterTool (m : Registry) (k : String) : Bool × Registry :=
  (mapHas m k, m.filter (fun p => decide (p.1 ≠ k)))

/-- `ToolRegistry.executeTool`: lookup, not-found containment, and the
try/catch failure boundary around the tool's execution. Always returns an
execution result; never lets a fault escape. -/
def executeTool (tools : Registry) (name : String) (args : JVal) : ExecResult :=
  match mapGet tools name with
  | none =>
      { content := [⟨"text", "Tool \"" ++ name ++ "\" not found"⟩]
      , isError := true }
  | some tool =>
      match tool.execute args with
      | Except.ok r => r
      | Except.error msg =>
          { content := [⟨"text",
              "Error executing tool \"" ++ name ++ "\": " ++ msg⟩]
          , isError := true }

/-- Number of catalog entries stored under a key. -/
def countKey (m : Registry) (k : String) : Nat :=
  (m.filter (fun p => decide (p.1 = k))).length

/-- Models `String(a + b)` in AddTool.execute for the argument shapes a
JSON body can carry: numeric addition, string concatenation with the JS
string coercions. An absent field is JS `undefined`, whose addition yields
`NaN`; the remaining unexercised shapes (null or object operands) are also
collapsed to the `"NaN"` string. -/
def jsAddStr : Option JVal → Option JVal → String
  | some (.jnum a), some (.jnum b) => toString (a + b)
  | some (.jstr a), some (.jstr b) => a ++ b
  | some (.jstr a), some (.jnum b) => a ++ toString b
  | some (.jnum a), some (.jstr b) => toString a ++ b
  | _, _ => "NaN"

/-- The arithmetic tool unit (src/tools/add.ts): destructures `a` and `b`
from the arguments and returns the string of their sum as one text block. -/
def addTool : Tool :=
  { name := "add"
  , description := "将两个数字相加并返回结果"
  , execute := fun args =>
      Except.ok
        { content := [⟨"text", jsAddStr (jGet args "a") (jGet args "b")⟩]
        , isError := false } }

/-- A second, distinct tool unit also named "add", used to exercise the
registry's last-write-wins overwrite policy. -/
def addToolV2 : Tool :=
  { name := "add"
  , description := "updated adder"
  , execute := fun args =>
      Except.ok
        { content := [⟨"text", jsAddStr (jGet args "a") (jGet args "b")⟩]
        , isError := false } }

/-- A tool whose execution always throws with message "boom"; used as the
spec's boundary example for the registry's failure containment. -/
def boomTool : Tool :=
  { name := "boom-tool"
  , description := "always throws"
  , execute := fun _ => Except.error "boom" }

/-- A JSON-RPC id value: a number, a string, or the literal `null`. -/
inductive Jid where
  | num (n : Int)
  | str (s : String)
  | null
deriving DecidableEq

/-- JS truthiness of an id value: `0`, `""` and `null` are falsy. -/
def Jid.truthy : Jid → Bool
  | .num n => n != 0
  | .str s => s != ""
  | .null => false

/-- The inbound JSON-RPC message as server.ts reads it. `id = none` is an
absent field (JS `undefined`); `some Jid.null` is an explicit `id: null`. -/
structure JsonRpcRequest where
  id : Option Jid
  method : Option String
  params : Option JVal

/-- The `result` object of an observed channel message; only its
`protocolVersion` field is ever inspected by the correlator. -/
structure ResultVal where
  protocolVersion : Option String
deriving DecidableEq

/-- A message observed on the channel by the correlator's handler.
An `Option` field is `none` when the JS field is `undefined`. -/
structure ChannelMessage where
  id : Option Jid
  result : Option ResultVal
  error : Option JVal

/-- Truthiness of `message.result?.protocolVersion`: the field must be
present inside a present `result` and be a non-empty string. -/
def pvTruthy (msg : ChannelMessage) : Bool :=
  match msg.result with
  | some r =>
      match r.protocolVersion with
      | some s => s != ""
      | none => false
  | none => false

/-- The match test of the attached `messageHandler` (src/server.ts):
`message.id === jsonRpcRequest.id`, or the initialize handshake with a
truthy `message.result?.protocolVersion`, or `message.result !== undefined`,
or `message.error !== undefined`. -/
def isMatch (req : JsonRpcRequest) (msg : ChannelMessage) : Bool :=
  decide (msg.id = req.id)
  || (decide (req.method = some "initialize") && pvTruthy msg)
  || msg.result.isSome
  || msg.error.isSome

/-- The match condition as the spec words it: the only difference from the
code is clause (b), which asks merely that the observed message carry a
protocol-version field. -/
def specMatch (req : JsonRpcRequest) (msg : ChannelMessage) : Bool :=
  decide (msg.id = req.id)
  || (decide (req.method = some "initialize")
        && (match msg.result with
            | some r => r.protocolVersion.isSome
            | none => false))
  || msg.result.isSome
  || msg.error.isSome

/-- First observed message the handler accepts as the match. -/
def firstMatch (req : JsonRpcRequest) : List ChannelMessage → Option ChannelMessage
  | [] => none
  | m :: ms => if isMatch req m then some m else firstMatch req ms

/-- The id placed in a synthetic error reply: `jsonRpcRequest.id || null`. -/
def idOrNull : Option Jid → Jid
  | some j => if j.truthy then j else Jid.null
  | none => Jid.null

/-- The fixed protocol-level deadline, in milliseconds (`setTimeout` arg). -/
def requestTimeoutMs : Nat := 30000

/-- The body of an HTTP reply from handleMcpRequest: empty (notification
acknowledgment), one SSE-framed JSON-RPC message, or a plain JSON-RPC
error envelope `{ jsonrpc, error: { code, message }, id }`. -/
inductive ResponseBody where
  | empty
  | sse (msg : ChannelMessage)
  | rpcError (code : Int) (message : String) (id : Jid)

/-- An HTTP reply: status plus body. -/
structure HttpResponse where
  status : Nat
  body : ResponseBody

/-- What the environment does once a request is on the channel: either the
submission succeeds and these messages are observed by the handler before
the 30 s deadline, or the channel rejects the submission with an error. -/
inductive Scenario where
  | observed (msgs : List ChannelMessage)
  | sendError (errMsg : String)

/-- The request path of handleMcpRequest (id present): race between the
first matching observed message (HTTP 200, SSE frame), a channel
submission fault (HTTP 500, code -32603), and the fixed deadline
(HTTP 504, code -32603). Alongside the reply, the list of messages
submitted to the channel is returned. -/
def requestPath (req : JsonRpcRequest) (scen : Scenario) :
    HttpResponse × List JsonRpcRequest :=
  match scen with
  | .sendError m =>
      (⟨500, .rpcError (-32603) m (idOrNull req.id)⟩, [req])
  | .observed msgs =>
      match firstMatch req msgs with
      | some m => (⟨200, .sse m⟩, [req])
      | none =>
          (⟨504, .rpcError (-32603) "Request timeout" (idOrNull req.id)⟩, [req])

/-- handleMcpRequest (src/server.ts): a body that fails to parse is
rejected with HTTP 400 / code -32700 / id null before anything reaches
the channel; a message with `id === undefined` is a notification,
submitted fire-and-forget and acknowledged with HTTP 202 and an empty
body; otherwise the request path runs. The parse outcome carries the
thrown message on failure. -/
def handleMcpRequest (parsed : Except String JsonRpcRequest)
    (scen : Scenario) : HttpResponse × List JsonRpcRequest :=
  match parsed with
  | .error m => (⟨400, .rpcError (-32700) m Jid.null⟩, [])
  | .ok req =>
      if req.id.isNone then (⟨202, .empty⟩, [req])
      else requestPath req scen

/-! ### Catalog lemmas -/

theorem mapGet_mapSet_self (m : Registry) (k : String) (v : Tool) :
    mapGet (mapSet m k v) k = some v := by
  induction m with
  | nil => simp [mapSet, mapGet]
  | cons p rest ih =>
      obtain ⟨k0, v0⟩ := p
      by_cases h : k0 = k <;> simp [mapSet, mapGet, h, ih]

theorem mapGet_mapSet_ne (m : Registry) (k k' : String) (v : Tool)
    (h : k' ≠ k) : mapGet (mapSet m k v) k' = mapGet m k' := by
  induction m with
  | nil => simp [mapSet, mapGet, Ne.symm h]
  | cons p rest ih =>
      obtain ⟨k0, v0⟩ := p
      by_cases h0 : k0 = k
      · subst h0
        simp [mapSet, mapGet, Ne.symm h]
      · by_cases h1 : k0 = k' <;> simp [mapSet, mapGet, h0, h1, ih, h]

theorem mapSet_mapSet (m : Registry) (k : String) (v1 v2 : Tool) :
    mapSet (mapSet m k v1) k v2 = mapSet m k v2 := by
  induction m with
  | nil => simp [mapSet]
  | cons p rest ih =>
      obtain ⟨k0, v0⟩ := p
      by_cases h : k0 = k <;> simp [mapSet, h, ih]

theorem countKey_zero (m : Registry) (k : String)
    (h : k ∉ m.map Prod.fst) : countKey m k = 0 := by
  induction m with
  | nil => rfl
  | cons p rest ih =>
      simp only [List.map_cons, List.mem_cons, not_or] at h
      have hk : ¬ p.1 = k := fun e => h.1 e.symm
      simpa [countKey, List.filter_cons, hk] using ih h.2

theorem countKey_mapSet (m : Registry) (k : String) (v : Tool)
    (hnd : (m.map Prod.fst).Nodup) : countKey (mapSet m k v) k = 1 := by
  induction m with
  | nil => simp [mapSet, countKey]
  | cons p rest ih =>
      obtain ⟨k0, v0⟩ := p
      simp only [List.map_cons, List.nodup_cons] at hnd
      by_cases h0 : k0 = k
      · subst h0
        have h1 : countKey rest k0 = 0 := countKey_zero rest k0 hnd.1
        simpa [mapSet, countKey, List.filter_cons] using h1
      · simpa [mapSet, countKey, List.filter_cons, h0] using ih hnd.2

/-! ### Claim theorems -/

/-- C1: `executeTool` never lets a fault escape: it is a total function
into execution results, and whenever the looked-up tool's execution
raises (or rejects) with message `msg`, the result is `isError = true`
with a text block carrying that message. -/
theorem c1_executeTool_contains_fault (reg : Registry) (name : String)
    (args : JVal) (t : Tool) (msg : String)
    (hget : mapGet reg name = some t)
    (hexec : t.execute args = Except.error msg) :
    executeTool reg name args =
      { content := [⟨"text", "Error executing tool \"" ++ name ++ "\": " ++ msg⟩]
      , isError := true } := by
  simp [executeTool, hget, hexec]

/-- Witness for C1: the boundary example, a tool throwing "boom" yields
`isError = true` and a text block containing "boom". -/
theorem c1_witness_boom :
    mapGet [("boom-tool", boomTool)] "boom-tool" = some boomTool ∧
    boomTool.execute (JVal.jobj []) = Except.error "boom" ∧
    executeTool [("boom-tool", boomTool)] "boom-tool" (JVal.jobj []) =
      { content := [⟨"text", "Error executing tool \"boom-tool\": boom"⟩]
      , isError := true } :=
  ⟨rfl, rfl,
    c1_executeTool_contains_fault [("boom-tool", boomTool)] "boom-tool"
      (JVal.jobj []) boomTool "boom" rfl rfl⟩

/-- C3: an inbound message without an id field is a notification: the
reply is HTTP 202 with an empty body, whatever the channel later does
(including a failing consumer), and the message is still submitted. -/
theorem c3_notification_202 (req : JsonRpcRequest) (scen : Scenario)
    (h : req.id = none) :
    handleMcpRequest (Except.ok req) scen =
      (⟨202, ResponseBody.empty⟩, [req]) := by
  simp [handleMcpRequest, h]

/-- Witness for C3: a concrete notification in a scenario where the
channel consumer fails still gets 202 with an empty body. -/
theorem c3_witness :
    ({ id := none, method := some "notifications/initialized"
     , params := none } : JsonRpcRequest).id = none ∧
    handleMcpRequest
      (Except.ok { id := none, method := some "notifications/initialized"
                 , params := none })
      (Scenario.sendError "consumer failed") =
      (⟨202, ResponseBody.empty⟩,
       [{ id := none, method := some "notifications/initialized"
        , params := none }]) :=
  ⟨rfl, c3_notification_202 _ _ rfl⟩

/-- C4: registering two tools with the same name in sequence leaves
exactly one catalog entry under that name, holding the second unit; the
second registration surfaces the overwrite warning (no error channel
exists), and every other key of the catalog is unchanged. -/
theorem c4_register_twice_last_wins (s : RegState) (t1 t2 : Tool)
    (hnd : (s.tools.map Prod.fst).Nodup) (hname : t1.name = t2.name) :
    mapGet (registerTool (registerTool s t1) t2).tools t2.name = some t2 ∧
    countKey (registerTool (registerTool s t1) t2).tools t2.name = 1 ∧
    (∀ k, k ≠ t2.name →
      mapGet (registerTool (registerTool s t1) t2).tools k =
        mapGet s.tools k) ∧
    (registerTool (registerTool s t1) t2).warnings =
      (registerTool s t1).warnings ++ [warnOverwrite t2.name] := by
  have htools : (registerTool (registerTool s t1) t2).tools =
      mapSet s.tools t2.name t2 := by
    simp [registerTool, hname, mapSet_mapSet]
  refine ⟨?_, ?_, ?_, ?_⟩
  · rw [htools]; exact mapGet_mapSet_self _ _ _
  · rw [htools]; exact countKey_mapSet _ _ _ hnd
  · intro k hk
    rw [htools]; exact mapGet_mapSet_ne _ _ _ _ hk
  · have hhas : mapHas (mapSet s.tools t1.name t1) t2.name = true := by
      simp [mapHas, hname, mapGet_mapSet_self]
    simp [registerTool, hhas]

/-- Witness for C4: registering two distinct units named "add" into an
empty registry leaves one entry holding the second. -/
theorem c4_witness :
    (((⟨[], []⟩ : RegState).tools.map Prod.fst).Nodup ∧
      addTool.name = addToolV2.name) ∧
    (mapGet (registerTool (registerTool ⟨[], []⟩ addTool) addToolV2).tools
        addToolV2.name = some addToolV2 ∧
     countKey (registerTool (registerTool ⟨[], []⟩ addTool) addToolV2).tools
        addToolV2.name = 1 ∧
     (∀ k, k ≠ addToolV2.name →
       mapGet (registerTool (registerTool ⟨[], []⟩ addTool) addToolV2).tools k =
         mapGet ([] : Registry) k) ∧
     (registerTool (registerTool ⟨[], []⟩ addTool) addToolV2).warnings =
       (registerTool ⟨[], []⟩ addTool).warnings ++ [warnOverwrite addToolV2.name]) :=
  ⟨⟨List.nodup_nil, rfl⟩,
    c4_register_twice_last_wins ⟨[], []⟩ addTool addToolV2 List.nodup_nil rfl⟩

/-- C5: a name absent from the catalog yields `isError = true` with a
text block that mentions the requested tool name, and no exception. -/
theorem c5_not_found (reg : Registry) (name : String) (args : JVal)
    (h : mapGet reg name = none) :
    executeTool reg name args =
      { content := [⟨"text", "Tool \"" ++ name ++ "\" not found"⟩]
      , isError := true } ∧
    ∃ s1 s2, "Tool \"" ++ name ++ "\" not found" = s1 ++ name ++ s2 :=
  ⟨by simp [executeTool, h], ⟨"Tool \"", "\" not found", rfl⟩⟩

/-- Witness for C5: `execute("missing", {})` on an empty catalog returns
`isError = true` with a message mentioning "missing". -/
theorem c5_witness :
    mapGet [] "missing" = none ∧
    (executeTool [] "missing" (JVal.jobj []) =
      { content := [⟨"text", "Tool \"missing\" not found"⟩]
      , isError := true } ∧
     ∃ s1 s2, "Tool \"" ++ "missing" ++ "\" not found" = s1 ++ "missing" ++ s2) :=
  ⟨rfl, c5_not_found [] "missing" (JVal.jobj []) rfl⟩

/-- C6: the attached handler accepts an observed message as the match
exactly when the spec's four-clause disjunction holds: matching id, or
initialize handshake with a protocol-version field, or a result field,
or an error field. -/
theorem c6_match_iff_spec (req : JsonRpcRequest) (msg : ChannelMessage) :
    isMatch req msg = specMatch req msg := by
  cases hres : msg.result with
  | none => simp [isMatch, specMatch, pvTruthy, hres]
  | some r => simp [isMatch, specMatch, pvTruthy, hres]

/-- C7: a body that fails to parse is rejected with HTTP 400, a JSON-RPC
error envelope with code -32700 and id null, and nothing is submitted to
the channel. -/
theorem c7_parse_fault (m : String) (scen : Scenario) :
    handleMcpRequest (Except.error m) scen =
      (⟨400, ResponseBody.rpcError (-32700) m Jid.null⟩, []) := rfl

/-- C8: the arithmetic unit returns the decimal string of `a + b` as its
single text block, and the round-trip through the registry on
`{a: 2, b: 3}` yields content text "5". -/
theorem c8_add_round_trip (a b : Int) :
    addTool.execute (JVal.jobj [("a", JVal.jnum a), ("b", JVal.jnum b)]) =
      Except.ok { content := [⟨"text", toString (a + b)⟩], isError := false } ∧
    executeTool (registerTool ⟨[], []⟩ addTool).tools "add"
      (JVal.jobj [("a", JVal.jnum 2), ("b", JVal.jnum 3)]) =
      { content := [⟨"text", "5"⟩], isError := false } := by
  constructor
  · simp [addTool, jGet, lookupField, jsAddStr]
  · rfl

/-- C2 (counterexample): a request with the present but falsy id `0`
whose reply never arrives gets the 504 / -32603 timeout reply, but its
id field is `null`, not the original id `0` — the coercion
`jsonRpcRequest.id || null` drops falsy ids. -/
theorem c2_counterexample_id_zero :
    handleMcpRequest
      (Except.ok { id := some (Jid.num 0), method := some "tools/list"
                 , params := none })
      (Scenario.observed []) =
      (⟨504, ResponseBody.rpcError (-32603) "Request timeout" Jid.null⟩,
       [{ id := some (Jid.num 0), method := some "tools/list"
        , params := none }]) ∧
    Jid.null ≠ Jid.num 0 :=
  ⟨rfl, by decide⟩

/-- C2 (amended): when no observed message matches before the fixed
30-second deadline, the reply is HTTP 504 with error code -32603 and the
original id echoed when it is truthy, `null` when it is falsy (0, "")
or unknown. -/
theorem c2_timeout_reply (req : JsonRpcRequest) (j : Jid)
    (msgs : List ChannelMessage)
    (hid : req.id = some j) (hnomatch : firstMatch req msgs = none) :
    requestTimeoutMs = 30000 ∧
    handleMcpRequest (Except.ok req) (Scenario.observed msgs) =
      (⟨504, ResponseBody.rpcError (-32603) "Request timeout"
          (if j.truthy then j else Jid.null)⟩, [req]) := by
  refine ⟨rfl, ?_⟩
  simp [handleMcpRequest, requestPath, idOrNull, hid, hnomatch]

/-- Witness for C2 (amended): a request with truthy id 7 and no reply
times out to 504 / -32603 with id 7 echoed. -/
theorem c2_witness :
    ({ id := some (Jid.num 7), method := some "tools/list"
     , params := none } : JsonRpcRequest).id = some (Jid.num 7) ∧
    firstMatch { id := some (Jid.num 7), method := some "tools/list"
               , params := none } [] = none ∧
    (requestTimeoutMs = 30000 ∧
     handleMcpRequest
       (Except.ok { id := some (Jid.num 7), method := some "tools/list"
                  , params := none })
       (Scenario.observed []) =
       (⟨504, ResponseBody.rpcError (-32603) "Request timeout"
           (if (Jid.num 7).truthy then Jid.num 7 else Jid.null)⟩,
        [{ id := some (Jid.num 7), method := some "tools/list"
         , params := none }])) :=
  ⟨rfl, rfl, c2_timeout_reply _ (Jid.num 7) [] rfl rfl⟩

/-- C9: a present but falsy id (0 or "") is coerced to `null` by
`jsonRpcRequest.id || null` in both synthetic replies: the protocol
timeout (504) and the channel submission fault (500). -/
theorem c9_falsy_id_null (req : JsonRpcRequest) (j : Jid) (m : String)
    (msgs : List ChannelMessage)
    (hid : req.id = some j) (hfalsy : j.truthy = false)
    (hnomatch : firstMatch req msgs = none) :
    handleMcpRequest (Except.ok req) (Scenario.observed msgs) =
      (⟨504, ResponseBody.rpcError (-32603) "Request timeout" Jid.null⟩,
       [req]) ∧
    handleMcpRequest (Except.ok req) (Scenario.sendError m) =
      (⟨500, ResponseBody.rpcError (-32603) m Jid.null⟩, [req]) := by
  constructor <;>
    simp [handleMcpRequest, requestPath, idOrNull, hid, hfalsy, hnomatch]

/-- Witness for C9: the falsy id 0 yields `null` in the timeout reply
and in the submission-fault reply. -/
theorem c9_witness :
    ({ id := some (Jid.num 0), method := some "ping"
     , params := none } : JsonRpcRequest).id = some (Jid.num 0) ∧
    (Jid.num 0).truthy = false ∧
    firstMatch { id := some (Jid.num 0), method := some "ping"
               , params := none } [] = none ∧
    (handleMcpRequest
       (Except.ok { id := some (Jid.num 0), method := some "ping"
                  , params := none })
       (Scenario.observed []) =
       (⟨504, ResponseBody.rpcError (-32603) "Request timeout" Jid.null⟩,
        [{ id := some (Jid.num 0), method := some "ping", params := none }]) ∧
     handleMcpRequest
       (Except.ok { id := some (Jid.num 0), method := some "ping"
                  , params := none })
       (Scenario.sendError "send rejected") =
       (⟨500, ResponseBody.rpcError (-32603) "send rejected" Jid.null⟩,
        [{ id := some (Jid.num 0), method := some "ping", params := none }])) :=
  ⟨rfl, rfl, rfl,
    c9_falsy_id_null _ (Jid.num 0) "send rejected" [] rfl rfl rfl⟩

/-- C10: a message with an explicit `id: null` is not a notification:
only a strictly absent id takes the 202 path, so an `id: null` message
runs the request/correlation path (match, submission fault, or timeout)
and its reply status is never 202. -/
theorem c10_null_id_not_notification (m : Option JVal) (meth : Option String)
    (scen : Scenario) :
    handleMcpRequest
        (Except.ok { id := some Jid.null, method := meth, params := m }) scen =
      requestPath { id := some Jid.null, method := meth, params := m } scen ∧
    (handleMcpRequest
        (Except.ok { id := some Jid.null, method := meth, params := m })
        scen).1.status ≠ 202 := by
  refine ⟨rfl, ?_⟩
  cases scen with
  | sendError e => simp [handleMcpRequest, requestPath]
  | observed msgs =>
      cases h : firstMatch { id := some Jid.null, method := meth
                           , params := m } msgs <;>
        simp [handleMcpRequest, requestPath, h]
